import Mathlib

/-!
Verification development for the TTS webhook service
(src/tts_service/main.py and src/tts_service/rate_limiter.py).

The Python code is shallowly embedded: pure helpers become Lean functions,
the Flask handler receive_utterance becomes an explicit state-passing
function over the in-process application state, and the effects the code
performs (filesystem existence checks, the outcome of one call to each TTS
backend for the current request) are supplied by an explicit environment.
The model additionally returns the ordered list of backend invocations the
handler performs, so that claims of the form "no backend is invoked" are
statable. Real time is modelled by integer timestamps passed explicitly
(the source uses time.time(); all claim scenarios are at integral times).
-/

namespace TTSSpec

/-- The characters stripped by Python str.strip() with no argument
(ASCII whitespace; the Unicode space characters Python also strips are not
modelled, no claim depends on them). -/
def pyIsSpace (c : Char) : Bool :=
  c = ' ' || c = '\t' || c = '\n' || c = '\r' || c = '\x0b' || c = '\x0c'

/-- Python str.strip(): drop whitespace from both ends. -/
def pyStrip (s : String) : String :=
  String.mk (((s.toList.dropWhile pyIsSpace).reverse.dropWhile pyIsSpace).reverse)

/-- Python truthiness of the optional api_key string: None and the empty
string are falsy. -/
def pyTruthy : Option String → Bool
  | none => false
  | some s => s != ""

/-! ## Fingerprint generator (main.py, generate_cache_key, lines 170-179) -/

/-- The options dict assembled by receive_utterance (main.py lines 234-241). -/
structure Options where
  agent : String
  timestamp : String
  engine : String
  voice_type : String
  language : String
  speed : Rat

/-- JSON string literal rendering. Escaping of special characters inside the
string is not modelled; the claims depend only on this being a function of
its argument. -/
def jsonStr (s : String) : String :=
  "\"" ++ s ++ "\""

/-- The serialization json.dumps(cache_data, sort_keys=True) of the dict
built by generate_cache_key: the five keys engine, language, speed, text,
voice_type in sorted order (main.py lines 172-179). -/
def cacheDataJson (text engineName voiceType lang : String) (speed : Rat) : String :=
  "\x7b\"engine\": " ++ jsonStr engineName ++
  ", \"language\": " ++ jsonStr lang ++
  ", \"speed\": " ++ toString speed ++
  ", \"text\": " ++ jsonStr text ++
  ", \"voice_type\": " ++ jsonStr voiceType ++ "\x7d"

/-- MD5 modelled as a deterministic digest of the input string, rendered in
decimal. The claims about generate_cache_key depend only on the digest
being a deterministic function of the serialized bytes, not on the MD5
compression function itself, so a concrete executable digest stands in. -/
def md5hex (s : String) : String :=
  toString (s.toList.foldl (fun h c => (h * 131 + c.toNat) % (2 ^ 128)) 0)

/-- generate_cache_key(text, options) from main.py lines 170-179: hash the
sorted-key JSON serialization of the five fields text, engine, voice_type,
language, speed (options.get of each; agent and timestamp are not read). -/
def generate_cache_key (text : String) (o : Options) : String :=
  md5hex (cacheDataJson text o.engine o.voice_type o.language o.speed)

/-! ## Rate limiter (rate_limiter.py, lines 14-57) -/

/-- RateLimiter state: capacity, window length, and the per-identifier deque
of request timestamps (defaultdict(deque): every identifier starts at []). -/
structure RateLimiter where
  max_requests : Nat
  window_seconds : Int
  requests : String → List Int

/-- The while-loop of is_allowed (lines 41-42): pop timestamps from the
front while the front is older than window_start. -/
def pruneOld (window_start : Int) : List Int → List Int
  | [] => []
  | t :: ts => if t < window_start then pruneOld window_start ts else t :: ts

/-- Replace one identifier's window in the requests table. -/
def setWindow (rl : RateLimiter) (id : String) (w : List Int) : RateLimiter :=
  { rl with requests := fun x => if x = id then w else rl.requests x }

/-- RateLimiter.is_allowed (lines 27-49): prune old timestamps from the
front of the identifier's deque; if fewer than max_requests remain, append
now and allow, else deny. Returns the decision and the updated state. -/
def RateLimiter.is_allowed (rl : RateLimiter) (id : String) (now : Int) :
    Bool × RateLimiter :=
  let pruned := pruneOld (now - rl.window_seconds) (rl.requests id)
  if pruned.length < rl.max_requests then
    (true, setWindow rl id (pruned ++ [now]))
  else
    (false, setWindow rl id pruned)

/-- RateLimiter.get_reset_time (lines 51-57): 0 if the identifier's deque is
empty, else oldest + window_seconds - now. -/
def RateLimiter.get_reset_time (rl : RateLimiter) (id : String) (now : Int) : Int :=
  match rl.requests id with
  | [] => 0
  | oldest :: _ => oldest + rl.window_seconds - now

/-! ## Security middleware (rate_limiter.py, lines 59-151) -/

/-- SecurityMiddleware state: the rate limiter, the APIKeyValidator's
valid_keys mapping (key to metadata, metadata modelled as a string token),
and the require_api_key flag. -/
structure SecurityMiddleware where
  rate_limiter : RateLimiter
  valid_keys : List (String × String)
  require_api_key : Bool

/-- Result of SecurityMiddleware.check_request: either the request passes
(with the identifier chosen for rate limiting) or an HTTPException is
raised with the given status; for 429 the Retry-After value is carried. -/
inductive CheckOutcome where
  | allowed (identifier : String)
  | httpError (status : Nat) (retry_after : Option Int)
deriving DecidableEq

/-- The rate-limiting step of check_request (lines 136-144): on denial the
reset time is read from the state as already pruned by is_allowed. -/
def rateLimitStep (m : SecurityMiddleware) (identifier : String) (now : Int) :
    CheckOutcome × SecurityMiddleware :=
  let r := m.rate_limiter.is_allowed identifier now
  let m2 : SecurityMiddleware := { m with rate_limiter := r.2 }
  if r.1 then
    (.allowed identifier, m2)
  else
    (.httpError 429 (some (r.2.get_reset_time identifier now)), m2)

/-- SecurityMiddleware.check_request (lines 106-151). Inputs: the client
network address and the api_key extracted from header or query parameter
(None when absent; the empty string is falsy, as in Python). The identifier
is the api_key when truthy, else the client address. A truthy key that does
not validate raises 401; a missing key raises 401 when require_api_key;
otherwise rate limiting runs on the identifier. -/
def SecurityMiddleware.check_request (m : SecurityMiddleware) (client_ip : String)
    (api_key : Option String) (now : Int) : CheckOutcome × SecurityMiddleware :=
  let identifier := if pyTruthy api_key then api_key.getD "" else client_ip
  if pyTruthy api_key then
    match List.lookup (api_key.getD "") m.valid_keys with
    | none => (.httpError 401 none, m)
    | some _ => rateLimitStep m identifier now
  else if m.require_api_key then
    (.httpError 401 none, m)
  else
    rateLimitStep m identifier now

/-! ## sanitize_text (rate_limiter.py, lines 153-188) -/

/-- sanitize_text(text, max_length): error on empty or whitespace-only
text, strip, error when the stripped text exceeds max_length, else return
the stripped text. The forbidden_patterns list in the source is empty, so
the pattern loop never rejects and is not modelled further. -/
def sanitize_text (text : String) (max_length : Nat) : Except String String :=
  if text == "" || pyStrip text == "" then
    .error "Text cannot be empty"
  else
    let t := pyStrip text
    if t.length > max_length then
      .error ("Text too long. Maximum " ++ toString max_length ++ " characters allowed")
    else
      .ok t

/-! ## TTS engines and the webhook handler (main.py) -/

/-- Outcome of one call to an engine object's generate_audio: a returned
file path, or a raised exception with its message. -/
inductive EngineOutcome where
  | ok (path : String)
  | err (msg : String)
deriving DecidableEq

/-- Parameters of a WAV file as written through the wave module:
channel count, sample width in bytes, frame rate, and the number of
(all-zero) data bytes written. -/
structure WavParams where
  nchannels : Nat
  sampwidth : Nat
  framerate : Nat
  dataBytes : Nat
deriving DecidableEq

/-- Duration in seconds of a WAV file: data bytes divided by bytes per
frame (channels times sample width) divided by frame rate. -/
def WavParams.durationSeconds (w : WavParams) : Rat :=
  (w.dataBytes : Rat) / ((w.nchannels : Rat) * (w.sampwidth : Rat) * (w.framerate : Rat))

/-- The silent fallback WAV written by SystemTTSEngine.generate_audio
(main.py lines 154-158): mono, sampwidth 2, framerate 22050, and 44100
zero bytes of frame data. -/
def silentFallbackWav : WavParams :=
  { nchannels := 1, sampwidth := 2, framerate := 22050, dataBytes := 44100 }

/-- The filename timestamp mangling options.timestamp.isoformat().replace
of colon by dash; the timestamp is modelled by its ISO string. -/
def isoSanitize (ts : String) : String :=
  ts.replace ":" "-"

/-- The audio output directory (main.py line 40). -/
def AUDIO_DIR : String := "audio_files"

/-- SystemTTSEngine.generate_audio (main.py lines 127-161). The espeak
subprocess outcome is the environment input espeakOk (returncode 0 versus
any nonzero code or raised exception, both of which land in the except
branch). On failure the handler writes the silent fallback WAV and returns
its path; local file writes themselves are modelled as succeeding, as the
source performs them with no error handling. The second component reports
the WAV written by the fallback branch, none when espeak produced the
audio. No branch raises. -/
def SystemTTSEngine.generate_audio (espeakOk : Bool) (_text : String) (o : Options) :
    EngineOutcome × Option WavParams :=
  if espeakOk then
    (.ok (AUDIO_DIR ++ "/" ++ o.agent ++ "_" ++ isoSanitize o.timestamp ++ ".wav"), none)
  else
    (.ok (AUDIO_DIR ++ "/" ++ o.agent ++ "_" ++ isoSanitize o.timestamp ++ "_silent.wav"),
      some silentFallbackWav)

/-- The keys of the tts_engines registry (main.py lines 164-168); each
engine object's name attribute equals its registry key. -/
def knownEngines : List String := ["gtts", "openai", "system"]

/-- Engine selection (main.py lines 258-260): tts_engines.get(engine_name),
falling back to the system engine when the name is not registered. The
engine is identified by its registry key, which equals its name. -/
def resolveEngine (name : String) : String :=
  if knownEngines.contains name then name else "system"

/-- In-process application state relevant to the claims: the request
counter and the cache dict, modelled as an association list from cache key
to audio file path (at most one entry per key). -/
structure AppState where
  request_count : Nat
  cache : List (String × String)
deriving DecidableEq

/-- Remove a key from the cache (Python del). -/
def eraseKey (c : List (String × String)) (k : String) : List (String × String) :=
  c.filter (fun kv => kv.fst != k)

/-- Overwriting insertion into the cache dict. -/
def putCache (c : List (String × String)) (k v : String) : List (String × String) :=
  (k, v) :: eraseKey c k

/-- Environment of one request: which paths exist on disk, and the outcome
of calling each named engine's generate_audio on this request's text and
options. -/
structure Env where
  fileExists : String → Bool
  engineRun : String → EngineOutcome

/-- The webhook request after payload extraction with defaults
(main.py lines 212-223). -/
structure Request where
  agent : String
  utterance : String
  engine : String
  voice_type : String
  language : String
  speed : Rat
  timestamp : String
  avatar_id : Option String

/-- The options dict built from the request (main.py lines 234-241). -/
def optionsOf (r : Request) : Options :=
  { agent := r.agent, timestamp := r.timestamp, engine := r.engine,
    voice_type := r.voice_type, language := r.language, speed := r.speed }

/-- Response of the webhook as observable by the client: the success JSON
with its claim-relevant fields, or an error status and message. -/
inductive WebResponse where
  | success (audio_file : String) (engine_used : String) (cache_hit : Bool)
  | failure (status : Nat) (message : String)
deriving DecidableEq

/-- Result of one run of the handler: the response, the application state
afterwards, and the ordered list of engine names whose generate_audio was
invoked (instrumentation for stating non-invocation properties). -/
structure RunResult where
  response : WebResponse
  state : AppState
  attempts : List String
deriving DecidableEq

/-- The synthesis block of receive_utterance (main.py lines 256-273):
resolve the engine by requested name with fallback to system for unknown
names; invoke it; on success record the path in the cache. On exception,
when the requested name is not the string system, invoke the system engine
once (an exception there propagates to the outer handler, HTTP 500); when
the requested name is system, re-raise (HTTP 500). -/
def dispatchSynthesis (env : Env) (st : AppState) (req : Request) (key : String) :
    RunResult :=
  let name := resolveEngine req.engine
  match env.engineRun name with
  | .ok p =>
      { response := .success p name false,
        state := { st with cache := putCache st.cache key p },
        attempts := [name] }
  | .err msg =>
      if req.engine != "system" then
        match env.engineRun "system" with
        | .ok p =>
            { response := .success p "system" false,
              state := { st with cache := putCache st.cache key p },
              attempts := [name, "system"] }
        | .err m2 =>
            { response := .failure 500 ("TTS processing failed: " ++ m2),
              state := st,
              attempts := [name, "system"] }
      else
        { response := .failure 500 ("TTS processing failed: " ++ msg),
          state := st,
          attempts := [name] }

/-- receive_utterance (main.py lines 202-312), the POST /webhook handler.
The request counter is incremented first. Empty or whitespace-only text
returns 400 before the cache key is computed. Otherwise the cache is
consulted: on a hit whose file still exists, no engine variable is ever
assigned on the Python path, yet the success response reads engine.name
(line 296), so the handler raises UnboundLocalError, which the outer
except turns into an HTTP 500 (the exact Python message text is
version-dependent; a fixed representative is used). On a hit whose file is
gone, the stale entry is deleted and synthesis proceeds as on a miss. -/
def receive_utterance (env : Env) (st : AppState) (req : Request) : RunResult :=
  let st1 : AppState := { st with request_count := st.request_count + 1 }
  if req.utterance == "" || pyStrip req.utterance == "" then
    { response := .failure 400 "Utterance cannot be empty", state := st1, attempts := [] }
  else
    let key := generate_cache_key req.utterance (optionsOf req)
    match List.lookup key st1.cache with
    | some cached =>
        if env.fileExists cached then
          { response := .failure 500
              "TTS processing failed: local variable engine referenced before assignment",
            state := st1,
            attempts := [] }
        else
          dispatchSynthesis env { st1 with cache := eraseKey st1.cache key } req key
    | none => dispatchSynthesis env st1 req key

/-- Full handling of one inbound POST /webhook request by the Flask app in
src/tts_service/main.py. The app registers no middleware and
receive_utterance makes no reference to the rate_limiter module, so the
security middleware state, the client address, the api key and the clock
are threaded through unconsulted. -/
def webhook_inbound (sec : SecurityMiddleware) (env : Env) (st : AppState)
    (_client_ip : String) (_api_key : Option String) (_now : Int) (req : Request) :
    RunResult × SecurityMiddleware :=
  (receive_utterance env st req, sec)

/-! ## Helper lemmas -/

/-- A request with non-empty, non-whitespace text and no cache entry for
its key goes straight to the synthesis block. -/
lemma receive_utterance_eq_dispatch (env : Env) (st : AppState) (req : Request)
    (h1 : req.utterance ≠ "") (h2 : pyStrip req.utterance ≠ "")
    (h3 : List.lookup (generate_cache_key req.utterance (optionsOf req)) st.cache = none) :
    receive_utterance env st req =
      dispatchSynthesis env
        { request_count := st.request_count + 1, cache := st.cache } req
        (generate_cache_key req.utterance (optionsOf req)) := by
  have hb1 : (req.utterance == "") = false := beq_eq_false_iff_ne.mpr h1
  have hb2 : (pyStrip req.utterance == "") = false := beq_eq_false_iff_ne.mpr h2
  unfold receive_utterance
  simp [hb1, hb2, h3]

/-- When the resolved engine succeeds, the synthesis block returns its
path, records it in the cache, and makes exactly one invocation. -/
lemma dispatchSynthesis_ok (env : Env) (st : AppState) (req : Request) (key p : String)
    (h : env.engineRun (resolveEngine req.engine) = .ok p) :
    dispatchSynthesis env st req key =
      { response := .success p (resolveEngine req.engine) false,
        state := { st with cache := putCache st.cache key p },
        attempts := [resolveEngine req.engine] } := by
  simp only [dispatchSynthesis, h]

/-- A resolved engine different from system comes from a registered name
that is itself different from system. -/
lemma resolveEngine_of_ne_system (e : String) (h : resolveEngine e ≠ "system") :
    resolveEngine e = e ∧ e ≠ "system" := by
  unfold resolveEngine at h ⊢
  by_cases hc : knownEngines.contains e = true
  · rw [if_pos hc] at h ⊢
    exact ⟨rfl, h⟩
  · rw [if_neg hc] at h
    exact absurd rfl h

/-! ## Claims -/

/-- C1: the cache key is a pure, deterministic function of exactly the
five fields text, engine, voice_type, language and speed: any two requests
agreeing on these five fields get the same digest from generate_cache_key,
whatever their agent, timestamp, or other fields (determinism itself is
definitional in the embedding: generate_cache_key is a pure function). -/
theorem c1_cache_key_depends_only_on_five_fields (r1 r2 : Request)
    (ht : r1.utterance = r2.utterance) (he : r1.engine = r2.engine)
    (hv : r1.voice_type = r2.voice_type) (hl : r1.language = r2.language)
    (hs : r1.speed = r2.speed) :
    generate_cache_key r1.utterance (optionsOf r1) =
      generate_cache_key r2.utterance (optionsOf r2) := by
  simp [generate_cache_key, cacheDataJson, optionsOf, ht, he, hv, hl, hs]

/-- Witness for C1: two requests that differ in agent, timestamp and
avatar_id but share the five fingerprint fields get the same key. -/
theorem c1_witness :
    generate_cache_key "hi"
      (optionsOf { agent := "alpha", utterance := "hi", engine := "gtts",
                   voice_type := "neutral", language := "en", speed := 1,
                   timestamp := "2024-01-01T00:00:00", avatar_id := none }) =
    generate_cache_key "hi"
      (optionsOf { agent := "beta", utterance := "hi", engine := "gtts",
                   voice_type := "neutral", language := "en", speed := 1,
                   timestamp := "2030-12-31T23:59:59", avatar_id := some "av7" }) :=
  c1_cache_key_depends_only_on_five_fields _ _ rfl rfl rfl rfl rfl

/-- C8: a request whose text is empty or whitespace-only gets the 400
error response, the cache is left untouched (so no key computation, cache
lookup or mutation is observable) and no backend is invoked. -/
theorem c8_empty_text_rejected_before_work (env : Env) (st : AppState) (req : Request)
    (h : req.utterance = "" ∨ pyStrip req.utterance = "") :
    receive_utterance env st req =
      { response := .failure 400 "Utterance cannot be empty",
        state := { request_count := st.request_count + 1, cache := st.cache },
        attempts := [] } := by
  unfold receive_utterance
  rcases h with h | h <;> simp [h]

/-- Witness for C8: a whitespace-only utterance is rejected with 400 and
the cache survives unchanged. -/
theorem c8_witness :
    receive_utterance
        { fileExists := fun _ => true, engineRun := fun _ => .ok "audio_files/x.wav" }
        { request_count := 5, cache := [("k0", "audio_files/v0.wav")] }
        { agent := "bot1", utterance := "  \t ", engine := "gtts", voice_type := "neutral",
          language := "en", speed := 1, timestamp := "2024-01-01T00:00:00",
          avatar_id := none } =
      { response := .failure 400 "Utterance cannot be empty",
        state := { request_count := 6, cache := [("k0", "audio_files/v0.wav")] },
        attempts := [] } :=
  c8_empty_text_rejected_before_work _ _ _ (Or.inr (by decide))

/-- C5: is_allowed first prunes timestamps older than now minus the window
from the identifier window, then allows and records now exactly when fewer
than max_requests remain (first conjunct); on windows that are sorted, as
every window reachable by monotone clock calls is, front-pruning removes
exactly the old timestamps (second conjunct); and the 3-per-60-seconds
scenario behaves as claimed, including the reset times (third conjunct). -/
theorem c5_sliding_window :
    (∀ (rl : RateLimiter) (id : String) (now : Int),
      ((rl.is_allowed id now).1 = true ↔
        (pruneOld (now - rl.window_seconds) (rl.requests id)).length < rl.max_requests) ∧
      (rl.is_allowed id now).2.requests id =
        pruneOld (now - rl.window_seconds) (rl.requests id) ++
          (if (pruneOld (now - rl.window_seconds) (rl.requests id)).length < rl.max_requests
            then [now] else [])) ∧
    (∀ (ws : Int) (l : List Int), List.Pairwise (fun a b => a ≤ b) l →
      pruneOld ws l = l.filter (fun t => decide (ws ≤ t))) ∧
    (let rl0 : RateLimiter := { max_requests := 3, window_seconds := 60, requests := fun _ => [] }
     let r1 := rl0.is_allowed "c" 0
     let r2 := r1.2.is_allowed "c" 1
     let r3 := r2.2.is_allowed "c" 2
     let r4 := r3.2.is_allowed "c" 3
     let r5 := r4.2.is_allowed "c" 61
     r1.1 = true ∧ r2.1 = true ∧ r3.1 = true ∧ r4.1 = false ∧
       0 < r4.2.get_reset_time "c" 3 ∧ rl0.get_reset_time "c" 0 = 0 ∧ r5.1 = true) := by
  refine ⟨?_, ?_, ?_⟩
  · intro rl id now
    unfold RateLimiter.is_allowed
    by_cases hc : (pruneOld (now - rl.window_seconds) (rl.requests id)).length < rl.max_requests <;>
      simp [hc, setWindow]
  · intro ws l hl
    induction l with
    | nil => rfl
    | cons a t ih =>
      rw [List.pairwise_cons] at hl
      by_cases ha : a < ws
      · have hd : decide (ws ≤ a) = false := by simp [not_le.mpr ha]
        simp [pruneOld, ha, List.filter_cons, hd, ih hl.2]
      · have hge : ws ≤ a := not_lt.mp ha
        have hAll : ∀ x ∈ t, decide (ws ≤ x) = true := by
          intro x hx
          exact decide_eq_true (le_trans hge (hl.1 x hx))
        simp [pruneOld, ha, List.filter_cons, hge, List.filter_eq_self.mpr hAll]
  · decide

/-- Witness for C5: on the sorted window kept for an identifier that
requested at times 0, 1 and 2, pruning at time 61 with a 60-second window
removes exactly the timestamps older than 1. -/
theorem c5_witness :
    pruneOld 1 [0, 1, 2] = List.filter (fun t => decide ((1 : Int) ≤ t)) [0, 1, 2] :=
  c5_sliding_window.2.1 1 [0, 1, 2] (by decide)

/-- C6: with a truthy, valid API key the rate-limiting identifier is the
key itself: the check outcome is the same for any two client addresses and
any two middleware states agreeing on the key entry and limiter
parameters, and the windows of all other identifiers are untouched. -/
theorem c6_api_key_precedence (m1 m2 : SecurityMiddleware) (ip1 ip2 k meta : String)
    (now : Int)
    (hk : k ≠ "")
    (hval : List.lookup k m1.valid_keys = some meta)
    (hkeys : m1.valid_keys = m2.valid_keys)
    (hmax : m1.rate_limiter.max_requests = m2.rate_limiter.max_requests)
    (hwin : m1.rate_limiter.window_seconds = m2.rate_limiter.window_seconds)
    (hreq : m1.rate_limiter.requests k = m2.rate_limiter.requests k) :
    (m1.check_request ip1 (some k) now).1 = (m2.check_request ip2 (some k) now).1 ∧
    (∀ id, id ≠ k →
      (m1.check_request ip1 (some k) now).2.rate_limiter.requests id =
        m1.rate_limiter.requests id) := by
  have hkb : pyTruthy (some k) = true := by simp [pyTruthy, bne_iff_ne, hk]
  have hval2 : List.lookup k m2.valid_keys = some meta := by rw [← hkeys]; exact hval
  unfold SecurityMiddleware.check_request
  rw [hkb]
  simp only [if_true, Option.getD_some, hval, hval2]
  unfold rateLimitStep RateLimiter.is_allowed RateLimiter.get_reset_time
  constructor
  · rw [hmax, hwin, hreq]
    by_cases hc :
        (pruneOld (now - m2.rate_limiter.window_seconds) (m2.rate_limiter.requests k)).length <
          m2.rate_limiter.max_requests <;>
      simp [hc, setWindow, hwin]
  · intro id hid
    by_cases hc :
        (pruneOld (now - m1.rate_limiter.window_seconds) (m1.rate_limiter.requests k)).length <
          m1.rate_limiter.max_requests <;>
      simp [hc, setWindow, hid]

/-- Witness for C6: a valid key with two different client addresses and
two states that differ away from the key give the same check outcome. -/
theorem c6_witness :
    (SecurityMiddleware.check_request
        { rate_limiter := { max_requests := 3, window_seconds := 60,
                            requests := fun x => if x = "key1" then [10] else [0, 0, 0] },
          valid_keys := [("key1", "meta")], require_api_key := false }
        "1.1.1.1" (some "key1") 20).1 =
      (SecurityMiddleware.check_request
        { rate_limiter := { max_requests := 3, window_seconds := 60,
                            requests := fun x => if x = "key1" then [10] else [] },
          valid_keys := [("key1", "meta")], require_api_key := true }
        "2.2.2.2" (some "key1") 20).1 :=
  (c6_api_key_precedence _ _ "1.1.1.1" "2.2.2.2" "key1" "meta" 20 (by decide) (by decide)
    (by decide) (by decide) (by decide) (by decide)).1

/-- C3: when the resolved backend is not the default system backend and
its synthesis raises, the handler makes exactly one retry on the system
backend (the invocation log is exactly primary then system); if that also
fails the request ends as an HTTP 500 synthesis failure, with no further
invocation. Stated on a fresh cache miss with valid text. -/
theorem c3_fallback_exactly_once (env : Env) (st : AppState) (req : Request) (msg : String)
    (h1 : req.utterance ≠ "") (h2 : pyStrip req.utterance ≠ "")
    (h3 : List.lookup (generate_cache_key req.utterance (optionsOf req)) st.cache = none)
    (h4 : resolveEngine req.engine ≠ "system")
    (h5 : env.engineRun (resolveEngine req.engine) = .err msg) :
    (receive_utterance env st req).attempts = [resolveEngine req.engine, "system"] ∧
    (receive_utterance env st req).response =
      (match env.engineRun "system" with
        | .ok p => WebResponse.success p "system" false
        | .err m2 => WebResponse.failure 500 ("TTS processing failed: " ++ m2)) := by
  obtain ⟨hres, hne⟩ := resolveEngine_of_ne_system req.engine h4
  have hb : (req.engine != "system") = true := bne_iff_ne.mpr hne
  rw [receive_utterance_eq_dispatch env st req h1 h2 h3]
  rcases hsys : env.engineRun "system" with p | m2 <;>
    simp [dispatchSynthesis, h5, hb, hsys]

/-- Witness for C3: with gtts failing and the system espeak call also
failing, a gtts request makes exactly the two invocations and returns the
500 synthesis failure. -/
theorem c3_witness :
    (receive_utterance
        { fileExists := fun _ => false,
          engineRun := fun n => if n = "gtts" then .err "gtts down" else .err "espeak down" }
        { request_count := 0, cache := [] }
        { agent := "bot1", utterance := "hello", engine := "gtts", voice_type := "neutral",
          language := "en", speed := 1, timestamp := "2024-01-01T00:00:00",
          avatar_id := none }).attempts = ["gtts", "system"] ∧
    (receive_utterance
        { fileExists := fun _ => false,
          engineRun := fun n => if n = "gtts" then .err "gtts down" else .err "espeak down" }
        { request_count := 0, cache := [] }
        { agent := "bot1", utterance := "hello", engine := "gtts", voice_type := "neutral",
          language := "en", speed := 1, timestamp := "2024-01-01T00:00:00",
          avatar_id := none }).response = .failure 500 "TTS processing failed: espeak down" :=
  c3_fallback_exactly_once _ _ _ "gtts down" (by decide) (by decide) rfl (by decide) (by decide)

/-- C9: a request naming a backend outside the registry resolves to the
default system backend and, when that backend succeeds, the response is a
success whose engine_used is the system backend, with exactly one
invocation. Stated on a fresh cache miss with valid text. -/
theorem c9_unknown_backend_uses_default (env : Env) (st : AppState) (req : Request) (p : String)
    (h1 : req.utterance ≠ "") (h2 : pyStrip req.utterance ≠ "")
    (h3 : List.lookup (generate_cache_key req.utterance (optionsOf req)) st.cache = none)
    (hu : knownEngines.contains req.engine = false)
    (hs : env.engineRun "system" = .ok p) :
    (receive_utterance env st req).response = .success p "system" false ∧
    (receive_utterance env st req).attempts = ["system"] := by
  have hres : resolveEngine req.engine = "system" := by
    unfold resolveEngine
    rw [hu]
    rfl
  rw [receive_utterance_eq_dispatch env st req h1 h2 h3,
    dispatchSynthesis_ok env _ req _ p (by rw [hres]; exact hs)]
  exact ⟨by rw [hres], by rw [hres]⟩

/-- Witness for C9: requesting the backend nonexistent synthesizes with
the system backend and succeeds. -/
theorem c9_witness :
    (receive_utterance
        { fileExists := fun _ => false, engineRun := fun _ => .ok "audio_files/sys.wav" }
        { request_count := 0, cache := [] }
        { agent := "bot1", utterance := "hello", engine := "nonexistent",
          voice_type := "neutral", language := "en", speed := 1,
          timestamp := "2024-01-01T00:00:00", avatar_id := none }).response =
      .success "audio_files/sys.wav" "system" false ∧
    (receive_utterance
        { fileExists := fun _ => false, engineRun := fun _ => .ok "audio_files/sys.wav" }
        { request_count := 0, cache := [] }
        { agent := "bot1", utterance := "hello", engine := "nonexistent",
          voice_type := "neutral", language := "en", speed := 1,
          timestamp := "2024-01-01T00:00:00", avatar_id := none }).attempts = ["system"] :=
  c9_unknown_backend_uses_default _ _ _ "audio_files/sys.wav" (by decide) (by decide) rfl
    (by decide) rfl

/-- A concrete request used to exercise the cache paths of the handler. -/
def hitRequest : Request :=
  { agent := "bot1", utterance := "hello", engine := "gtts", voice_type := "neutral",
    language := "en", speed := 1, timestamp := "2024-01-01T00:00:00", avatar_id := none }

/-- The cache key the handler computes for hitRequest. -/
def hitKey : String := generate_cache_key "hello" (optionsOf hitRequest)

set_option maxRecDepth 100000 in
/-- C2: evaluation of the handler at the failing input. A repeated request
whose cached file still exists takes the cache-hit path, invokes no
backend and keeps the entry, but the response is the HTTP 500 from the
UnboundLocalError on engine.name rather than the claimed 200 with
cache_hit true (first half). When the cached file is gone, the stale entry
is removed and the request proceeds exactly as a fresh miss, re-invoking a
backend and re-caching (second half, as claimed). -/
theorem c2_cache_hit_crash_and_lazy_invalidation :
    ((receive_utterance
        { fileExists := fun _ => true, engineRun := fun _ => .ok "audio_files/new.mp3" }
        { request_count := 1, cache := [(hitKey, "audio_files/old.mp3")] }
        hitRequest).response =
      .failure 500 "TTS processing failed: local variable engine referenced before assignment" ∧
     (receive_utterance
        { fileExists := fun _ => true, engineRun := fun _ => .ok "audio_files/new.mp3" }
        { request_count := 1, cache := [(hitKey, "audio_files/old.mp3")] }
        hitRequest).attempts = [] ∧
     (receive_utterance
        { fileExists := fun _ => true, engineRun := fun _ => .ok "audio_files/new.mp3" }
        { request_count := 1, cache := [(hitKey, "audio_files/old.mp3")] }
        hitRequest).state.cache = [(hitKey, "audio_files/old.mp3")]) ∧
    (receive_utterance
        { fileExists := fun _ => false, engineRun := fun _ => .ok "audio_files/new.mp3" }
        { request_count := 1, cache := [(hitKey, "audio_files/old.mp3")] }
        hitRequest) =
      { response := .success "audio_files/new.mp3" "gtts" false,
        state := { request_count := 2, cache := [(hitKey, "audio_files/new.mp3")] },
        attempts := ["gtts"] } := by
  decide

/-- C4 counterexample: an identifier that has exhausted its quota (the
rate limiter denies it) still has its webhook request processed to a 200
success with a backend invocation, because receive_utterance never
consults the security middleware. -/
theorem c4_counterexample :
    (RateLimiter.is_allowed
        { max_requests := 3, window_seconds := 60, requests := fun _ => [100, 100, 100] }
        "9.9.9.9" 100).1 = false ∧
    (webhook_inbound
        { rate_limiter := { max_requests := 3, window_seconds := 60,
                            requests := fun _ => [100, 100, 100] },
          valid_keys := [], require_api_key := false }
        { fileExists := fun _ => false, engineRun := fun _ => .ok "audio_files/h.wav" }
        { request_count := 0, cache := [] }
        "9.9.9.9" none 100
        { agent := "bot1", utterance := "hello", engine := "gtts", voice_type := "neutral",
          language := "en", speed := 1, timestamp := "2024-01-01T00:00:00",
          avatar_id := none }).1.response = .success "audio_files/h.wav" "gtts" false ∧
    (webhook_inbound
        { rate_limiter := { max_requests := 3, window_seconds := 60,
                            requests := fun _ => [100, 100, 100] },
          valid_keys := [], require_api_key := false }
        { fileExists := fun _ => false, engineRun := fun _ => .ok "audio_files/h.wav" }
        { request_count := 0, cache := [] }
        "9.9.9.9" none 100
        { agent := "bot1", utterance := "hello", engine := "gtts", voice_type := "neutral",
          language := "en", speed := 1, timestamp := "2024-01-01T00:00:00",
          avatar_id := none }).1.attempts = ["gtts"] := by
  decide

/-- C4 amended: the Access Control Gate exists and behaves as specified
when invoked, denying an exhausted identifier with HTTP 429 carrying the
retry-after reset value (first conjunct); but the webhook endpoint is not
wired through it: its outcome is identical for any two security states,
addresses, keys and clocks (second conjunct). -/
theorem c4_gate_behaves_but_unwired :
    (∀ (m : SecurityMiddleware) (ip : String) (now : Int),
      m.require_api_key = false →
      (m.rate_limiter.is_allowed ip now).1 = false →
      (m.check_request ip none now).1 =
        CheckOutcome.httpError 429
          (some ((m.rate_limiter.is_allowed ip now).2.get_reset_time ip now))) ∧
    (∀ (sec1 sec2 : SecurityMiddleware) (env : Env) (st : AppState) (ip1 ip2 : String)
        (key1 key2 : Option String) (now1 now2 : Int) (req : Request),
      (webhook_inbound sec1 env st ip1 key1 now1 req).1 =
        (webhook_inbound sec2 env st ip2 key2 now2 req).1) := by
  constructor
  · intro m ip now hreq hdeny
    unfold SecurityMiddleware.check_request rateLimitStep
    simp [pyTruthy, hreq, hdeny]
  · intro sec1 sec2 env st ip1 ip2 key1 key2 now1 now2 req
    rfl

/-- Witness for C4 amended: a concrete exhausted identifier gets the 429
with retry-after 60 from the gate, and two wildly different security
states yield the same webhook outcome. -/
theorem c4_witness :
    (SecurityMiddleware.check_request
        { rate_limiter := { max_requests := 3, window_seconds := 60,
                            requests := fun _ => [100, 100, 100] },
          valid_keys := [], require_api_key := false }
        "9.9.9.9" none 100).1 = CheckOutcome.httpError 429 (some 60) ∧
    (webhook_inbound
        { rate_limiter := { max_requests := 0, window_seconds := 1, requests := fun _ => [] },
          valid_keys := [("a", "b")], require_api_key := true }
        { fileExists := fun _ => false, engineRun := fun _ => .ok "audio_files/h.wav" }
        { request_count := 0, cache := [] } "1.1.1.1" (some "a") 5 hitRequest).1 =
      (webhook_inbound
        { rate_limiter := { max_requests := 9, window_seconds := 9, requests := fun _ => [7] },
          valid_keys := [], require_api_key := false }
        { fileExists := fun _ => false, engineRun := fun _ => .ok "audio_files/h.wav" }
        { request_count := 0, cache := [] } "2.2.2.2" none 6 hitRequest).1 :=
  ⟨c4_gate_behaves_but_unwired.1 _ "9.9.9.9" 100 rfl (by decide),
   c4_gate_behaves_but_unwired.2 _ _ _ _ "1.1.1.1" "2.2.2.2" (some "a") none 5 6 hitRequest⟩

/-- Dropping leading whitespace from a run of a characters drops
nothing. -/
lemma dropWhile_replicate_a (n : Nat) :
    List.dropWhile pyIsSpace (List.replicate n 'a') = List.replicate n 'a' := by
  cases n with
  | zero => rfl
  | succ m => simp [List.replicate_succ, List.dropWhile_cons, pyIsSpace]

/-- Stripping a run of a characters is the identity. -/
lemma pyStrip_replicate_a (n : Nat) :
    pyStrip (String.mk (List.replicate n 'a')) = String.mk (List.replicate n 'a') := by
  unfold pyStrip
  rw [show (String.mk (List.replicate n 'a')).toList = List.replicate n 'a' from rfl,
    dropWhile_replicate_a, List.reverse_replicate, dropWhile_replicate_a,
    List.reverse_replicate]

/-- A nonempty run of a characters is a nonempty string. -/
lemma replicate_a_ne_empty (n : Nat) (h : n ≠ 0) :
    String.mk (List.replicate n 'a') ≠ "" := by
  intro he
  have hd : List.replicate n 'a' = [] := congrArg String.data he
  rw [List.replicate_eq_nil_iff] at hd
  exact h hd

/-- The oversized text used against the length-bound claim: 5001 copies of
the letter a. -/
def longText : String := String.mk (List.replicate 5001 'a')

/-- A request carrying the oversized text. -/
def longRequest : Request :=
  { agent := "bot1", utterance := longText, engine := "gtts", voice_type := "neutral",
    language := "en", speed := 1, timestamp := "2024-01-01T00:00:00", avatar_id := none }

/-- An environment whose backends all succeed, used with longRequest. -/
def longEnv : Env :=
  { fileExists := fun _ => false, engineRun := fun _ => .ok "audio_files/big.mp3" }

/-- C7 counterexample: a request whose text has 5001 characters, above the
5000-character maximum, is not rejected with a 400: the handler
synthesizes it, invoking a backend and returning a success. -/
theorem c7_counterexample :
    longText.length > 5000 ∧
    (receive_utterance longEnv { request_count := 0, cache := [] } longRequest).response =
      .success "audio_files/big.mp3" "gtts" false ∧
    (receive_utterance longEnv { request_count := 0, cache := [] } longRequest).attempts =
      ["gtts"] := by
  have h1 : longRequest.utterance ≠ "" := replicate_a_ne_empty 5001 (by decide)
  have h2 : pyStrip longRequest.utterance ≠ "" := by
    show pyStrip longText ≠ ""
    unfold longText
    rw [pyStrip_replicate_a]
    exact replicate_a_ne_empty 5001 (by decide)
  have h3 : List.lookup (generate_cache_key longRequest.utterance (optionsOf longRequest))
      (AppState.mk 0 []).cache = none := rfl
  refine ⟨?_, ?_, ?_⟩
  · show (String.mk (List.replicate 5001 'a')).length > 5000
    rw [show (String.mk (List.replicate 5001 'a')).length = (List.replicate 5001 'a').length
      from rfl, List.length_replicate]
    norm_num
  · rw [receive_utterance_eq_dispatch longEnv (AppState.mk 0 []) longRequest h1 h2 h3,
      dispatchSynthesis_ok longEnv (AppState.mk 1 []) longRequest
        (generate_cache_key longRequest.utterance (optionsOf longRequest))
        "audio_files/big.mp3" rfl]
    rfl
  · rw [receive_utterance_eq_dispatch longEnv (AppState.mk 0 []) longRequest h1 h2 h3,
      dispatchSynthesis_ok longEnv (AppState.mk 1 []) longRequest
        (generate_cache_key longRequest.utterance (optionsOf longRequest))
        "audio_files/big.mp3" rfl]
    rfl

/-- C7 amended: the 5000-character length bound lives only in
sanitize_text, which rejects any text whose stripped form is longer than
max_length (first conjunct); the webhook dispatcher never calls it and
imposes no length bound: any request with non-empty, non-whitespace text
and a fresh cache key is synthesized normally whatever its length (second
conjunct). -/
theorem c7_length_bound_only_in_sanitizer :
    (∀ (s : String) (maxLen : Nat), (pyStrip s).length > maxLen →
      sanitize_text s maxLen =
        .error ("Text too long. Maximum " ++ toString maxLen ++ " characters allowed")) ∧
    (∀ (env : Env) (st : AppState) (req : Request) (p : String),
      req.utterance ≠ "" → pyStrip req.utterance ≠ "" →
      List.lookup (generate_cache_key req.utterance (optionsOf req)) st.cache = none →
      env.engineRun (resolveEngine req.engine) = .ok p →
      (receive_utterance env st req).response =
        .success p (resolveEngine req.engine) false) := by
  constructor
  · intro s maxLen hlen
    have hne : pyStrip s ≠ "" := by
      intro h
      rw [h] at hlen
      exact absurd hlen (by simp)
    have hs : s ≠ "" := by
      intro h
      rw [h] at hne
      exact hne rfl
    have hb1 : (s == "") = false := beq_eq_false_iff_ne.mpr hs
    have hb2 : (pyStrip s == "") = false := beq_eq_false_iff_ne.mpr hne
    unfold sanitize_text
    simp [hb1, hb2, hlen]
  · intro env st req p h1 h2 h3 h4
    rw [receive_utterance_eq_dispatch env st req h1 h2 h3,
      dispatchSynthesis_ok env _ req _ p h4]

/-- Witness for C7 amended: sanitize_text rejects a six-character text
against a bound of five, and the handler synthesizes a short request. -/
theorem c7_witness :
    sanitize_text "aaaaaa" 5 = .error "Text too long. Maximum 5 characters allowed" ∧
    (receive_utterance
        { fileExists := fun _ => false, engineRun := fun _ => .ok "audio_files/a.mp3" }
        { request_count := 0, cache := [] }
        { agent := "bot1", utterance := "aaaaaa", engine := "gtts", voice_type := "neutral",
          language := "en", speed := 1, timestamp := "2024-01-01T00:00:00",
          avatar_id := none }).response = .success "audio_files/a.mp3" "gtts" false :=
  ⟨c7_length_bound_only_in_sanitizer.1 "aaaaaa" 5 (by decide),
   c7_length_bound_only_in_sanitizer.2 _ _ _ "audio_files/a.mp3" (by decide) (by decide)
     rfl rfl⟩

/-- C10 counterexample: the silent fallback WAV written when espeak fails
is 44100 zero bytes at sample width 2, mono, 22050 frames per second,
which is one second of audio, not the claimed two seconds. -/
theorem c10_counterexample :
    (SystemTTSEngine.generate_audio false "hello"
        { agent := "bot1", timestamp := "2024-01-01T00:00:00", engine := "system",
          voice_type := "neutral", language := "en", speed := 1 }).2 =
      some silentFallbackWav ∧
    silentFallbackWav.durationSeconds = 1 ∧
    silentFallbackWav.durationSeconds ≠ 2 := by
  refine ⟨rfl, ?_, ?_⟩ <;> norm_num [silentFallbackWav, WavParams.durationSeconds]

/-- C10 amended: SystemTTSEngine.generate_audio is total: for every espeak
outcome, text and options it returns a file path and never an exception
(first conjunct); when espeak fails it writes the one-second silent
fallback WAV and returns its path (second conjunct); consequently, under
any environment where the system engine call returns a path, the raise
branch of the dispatcher cannot be reached: the synthesis block always
produces a success response (third conjunct). -/
theorem c10_system_engine_total :
    (∀ (espeakOk : Bool) (text : String) (o : Options),
      ∃ p, (SystemTTSEngine.generate_audio espeakOk text o).1 = .ok p) ∧
    (∀ (text : String) (o : Options),
      (SystemTTSEngine.generate_audio false text o).2 = some silentFallbackWav ∧
      silentFallbackWav.durationSeconds = 1) ∧
    (∀ (env : Env) (st : AppState) (req : Request) (key p : String),
      env.engineRun "system" = .ok p →
      ∃ q n, (dispatchSynthesis env st req key).response = .success q n false) := by
  refine ⟨?_, ?_, ?_⟩
  · intro espeakOk text o
    cases espeakOk <;> exact ⟨_, rfl⟩
  · intro text o
    exact ⟨rfl, by norm_num [silentFallbackWav, WavParams.durationSeconds]⟩
  · intro env st req key p hsys
    rcases hrun : env.engineRun (resolveEngine req.engine) with q | msg
    · exact ⟨q, resolveEngine req.engine, by simp [dispatchSynthesis, hrun]⟩
    · have hne : req.engine ≠ "system" := by
        intro he
        rw [he] at hrun
        have hr : resolveEngine "system" = "system" := rfl
        rw [hr, hsys] at hrun
        exact EngineOutcome.noConfusion hrun
      have hb : (req.engine != "system") = true := bne_iff_ne.mpr hne
      exact ⟨p, "system", by simp [dispatchSynthesis, hrun, hb, hsys]⟩

/-- Witness for C10 amended: with the system engine returning a path, a
request for the failing gtts backend still ends as a success. -/
theorem c10_witness :
    ∃ q n,
      (dispatchSynthesis
        { fileExists := fun _ => false,
          engineRun := fun x => if x = "gtts" then .err "down" else .ok "audio_files/s.wav" }
        { request_count := 0, cache := [] }
        { agent := "bot1", utterance := "hello", engine := "gtts", voice_type := "neutral",
          language := "en", speed := 1, timestamp := "2024-01-01T00:00:00",
          avatar_id := none }
        "somekey").response = .success q n false :=
  c10_system_engine_total.2.2 _ _ _ "somekey" "audio_files/s.wav" rfl

end TTSSpec
